import Mathlib

/-!
Verification of the Fieldscore offline sync subsystem
(`SyncQueueService` in `src/services/syncQueue.ts` and `SyncManager` in
`src/services/syncManager.ts`) against its natural-language specification.

The TypeScript code is shallowly embedded: the durable store (AsyncStorage)
is modelled by explicitly passing the stored queue and stats values, a
storage read/write failure is modelled by a boolean flag, timestamps are
`Int` milliseconds (JavaScript `Date.now()` values with exact subtraction),
and operations that can re-throw return `Except`.
-/

namespace Fieldscore

/-- `SyncItem.status` field: `'pending' | 'processing' | 'success' | 'failed'`. -/
inductive SyncStatus where
  | pending
  | processing
  | success
  | failed
  deriving DecidableEq, Repr

/-- Embedding of the `SyncItem` interface (`syncQueue.ts`).  The farmer
payload `data` is irrelevant to every claim and is omitted; `timestamp`,
`retryCount`, `status`, `lastError` and `id` are kept. -/
structure SyncItem where
  id : String
  timestamp : Int
  retryCount : Nat
  status : SyncStatus
  lastError : Option String := none
  deriving DecidableEq, Repr

/-- Embedding of the `SyncStats` interface (`syncQueue.ts`).  The
`lastSyncAttempt` / `lastSuccessfulSync` fields are nullable numbers,
modelled as `Option Int`. -/
structure SyncStats where
  totalItems : Nat
  pendingItems : Nat
  failedItems : Nat
  successItems : Nat
  processingItems : Nat
  lastSyncAttempt : Option Int
  lastSuccessfulSync : Option Int
  deriving DecidableEq, Repr

/-- `SyncQueueService.MAX_RETRY_COUNT = 5`. -/
def MAX_RETRY_COUNT : Nat := 5

/-- `SyncQueueService.RETRY_DELAY_MS = 60000`. -/
def RETRY_DELAY_MS : Int := 60000

/-- The default stats object built inside `getStats` / `resetStats`. -/
def defaultStats : SyncStats :=
  { totalItems := 0, pendingItems := 0, failedItems := 0, successItems := 0,
    processingItems := 0, lastSyncAttempt := none, lastSuccessfulSync := none }

/-- The filter predicate of `SyncQueueService.getItemsReadyForRetry`:
pending items pass; failed items pass when `retryCount < MAX_RETRY_COUNT`
and `now - item.timestamp > RETRY_DELAY_MS * 2 ^ item.retryCount`
(strict `>` in the source). -/
def retryEligible (now : Int) (item : SyncItem) : Bool :=
  match item.status with
  | .pending => true
  | .failed =>
      item.retryCount < MAX_RETRY_COUNT &&
        now - item.timestamp > RETRY_DELAY_MS * 2 ^ item.retryCount
  | _ => false

/-- `SyncQueueService.getItemsReadyForRetry` on an already-loaded queue:
`queue.filter(...)` with the eligibility predicate above.  (Storage read
failure is handled separately; see `getQueue`.) -/
def getItemsReadyForRetry (queue : List SyncItem) (now : Int) : List SyncItem :=
  queue.filter (retryEligible now)

/-- The spec's wording of the same predicate, for comparison: elapsed
time `≥` the threshold ("included at or after that point"), instead of
the source's strict `>`. -/
def retryEligibleSpec (now : Int) (item : SyncItem) : Bool :=
  match item.status with
  | .pending => true
  | .failed =>
      item.retryCount < MAX_RETRY_COUNT &&
        now - item.timestamp ≥ RETRY_DELAY_MS * 2 ^ item.retryCount
  | _ => false

/-- A failed item, retry count 0, last transition at time 0. -/
def boundaryItem : SyncItem :=
  { id := "farmer_0_b", timestamp := 0, retryCount := 0, status := .failed }

/-- C1 counterexample: at `now = 60000` the elapsed time since
`boundaryItem`'s last transition is exactly `60000 * 2 ^ 0`, so the claim
(and `retryEligibleSpec`) includes the item, but
`getItemsReadyForRetry` returns the empty list: the source tests
`now - timestamp > delay`, strictly. -/
theorem c1_boundary_excluded :
    retryEligibleSpec 60000 boundaryItem = true ∧
    getItemsReadyForRetry [boundaryItem] 60000 = [] := by
  constructor <;> decide

/-- Membership characterisation of `getItemsReadyForRetry` (helper shared
by several claims). -/
lemma mem_getItemsReadyForRetry (queue : List SyncItem) (now : Int)
    (item : SyncItem) :
    item ∈ getItemsReadyForRetry queue now ↔
      item ∈ queue ∧
        (item.status = .pending ∨
          (item.status = .failed ∧ item.retryCount < 5 ∧
            now - item.timestamp > 60000 * 2 ^ item.retryCount)) := by
  unfold getItemsReadyForRetry
  rw [List.mem_filter]
  constructor
  · rintro ⟨hm, he⟩
    refine ⟨hm, ?_⟩
    unfold retryEligible at he
    cases hs : item.status <;> simp [hs] at he
    · exact Or.inl rfl
    · exact Or.inr ⟨rfl, he.1, he.2⟩
  · rintro ⟨hm, he⟩
    refine ⟨hm, ?_⟩
    unfold retryEligible
    rcases he with hs | ⟨hs, hc, ht⟩
    · rw [hs]
    · rw [hs]
      simp [MAX_RETRY_COUNT, RETRY_DELAY_MS, hc, ht]

/-- C1 (amended): `getItemsReadyForRetry` returns exactly the pending
items plus the failed items with `retryCount < 5` whose elapsed time
since their last transition is *strictly greater than*
`60000 * 2 ^ retryCount`; an item at exactly the threshold is excluded. -/
theorem c1_retry_filter_characterisation (queue : List SyncItem) (now : Int)
    (item : SyncItem) :
    item ∈ getItemsReadyForRetry queue now ↔
      item ∈ queue ∧
        (item.status = .pending ∨
          (item.status = .failed ∧ item.retryCount < 5 ∧
            now - item.timestamp > 60000 * 2 ^ item.retryCount)) :=
  mem_getItemsReadyForRetry queue now item

/-- A pending item carrying `retryCount = 5`. -/
def pendingAtCeiling : SyncItem :=
  { id := "farmer_0_p", timestamp := 0, retryCount := 5, status := .pending }

/-- C2 counterexample: over arbitrary queue states the claim fails — a
*pending* item with `retryCount = 5` is returned by
`getItemsReadyForRetry`, because the source's filter admits every pending
item without inspecting its retry count. -/
theorem c2_pending_ceiling_included :
    pendingAtCeiling.retryCount ≥ 5 ∧
    pendingAtCeiling ∈ getItemsReadyForRetry [pendingAtCeiling] 0 := by
  constructor <;> decide

/-- C2 (amended): an item with status `failed` and `retryCount ≥ 5` is
never contained in the result of `getItemsReadyForRetry`, for every queue
and every current time. -/
theorem c2_failed_ceiling_never_retried (queue : List SyncItem) (now : Int)
    (item : SyncItem) (hs : item.status = .failed)
    (hc : 5 ≤ item.retryCount) :
    item ∉ getItemsReadyForRetry queue now := by
  intro hmem
  rcases (mem_getItemsReadyForRetry queue now item).1 hmem with
    ⟨-, hp | ⟨-, hlt, -⟩⟩
  · rw [hs] at hp; cases hp
  · omega

/-- A failed item at the retry ceiling. -/
def failedAtCeiling : SyncItem :=
  { id := "farmer_0_f", timestamp := 0, retryCount := 5, status := .failed }

/-- Witness for `c2_failed_ceiling_never_retried` at a concrete item. -/
theorem c2_failed_ceiling_never_retried_witness :
    failedAtCeiling ∉ getItemsReadyForRetry [failedAtCeiling] 10000000 :=
  c2_failed_ceiling_never_retried [failedAtCeiling] 10000000 failedAtCeiling
    rfl (by decide)

/-! ## Storage-level operations of `SyncQueueService`

Durable storage is modelled by passing the stored queue / stats values
explicitly; `readFails` (resp. `writeFails`, `removeFails`) models the
corresponding AsyncStorage call throwing.  An operation whose `catch`
block re-throws is embedded in `Except`; every other operation is total
and returns the source's safe default on failure. -/

/-- `SyncQueueService.getQueue`: `getItem` + JSON parse inside try;
the catch returns `[]`. -/
def getQueue (readFails : Bool) (stored : List SyncItem) : List SyncItem :=
  if readFails then [] else stored

/-- `SyncQueueService.getStats`: returns the stored stats, or the default
stats object when the read throws (or when nothing is stored). -/
def getStats (readFails : Bool) (stored : SyncStats) : SyncStats :=
  if readFails then defaultStats else stored

/-- `SyncQueueService.updateStats` core: overwrite the five count fields
of `stats` from the current queue, then persist.  The two timestamp
fields are carried over by the record update, exactly as the source
mutates only the count fields of the loaded `stats` object. -/
def updateStats (queue : List SyncItem) (stats : SyncStats) : SyncStats :=
  { stats with
    totalItems := queue.length
    pendingItems := (queue.filter (fun item => item.status == .pending)).length
    failedItems := (queue.filter (fun item => item.status == .failed)).length
    successItems := (queue.filter (fun item => item.status == .success)).length
    processingItems :=
      (queue.filter (fun item => item.status == .processing)).length }

/-- The fresh `SyncItem` built by `addToQueue`: generated id, current
timestamp, `retryCount: 0`, `status: 'pending'`. -/
def mkQueueItem (id : String) (now : Int) : SyncItem :=
  { id := id, timestamp := now, retryCount := 0, status := .pending }

/-- `SyncQueueService.addToQueue`: loads the queue (its own catch already
absorbs a read failure), appends the new item and writes.  A write
failure is caught, logged and *re-thrown* (`throw error`), so the
operation is `Except`-valued; on success it returns the generated id and
the new stored queue. -/
def addToQueue (readFails writeFails : Bool) (stored : List SyncItem)
    (id : String) (now : Int) : Except String (String × List SyncItem) :=
  let queue := getQueue readFails stored
  if writeFails then Except.error "storage write failed"
  else Except.ok (id, queue ++ [mkQueueItem id now])

/-- `SyncQueueService.clearQueue`: `removeItem` + `resetStats`; a failure
is caught, logged and *re-thrown*. -/
def clearQueue (removeFails : Bool) :
    Except String (List SyncItem × SyncStats) :=
  if removeFails then Except.error "storage remove failed"
  else Except.ok ([], defaultStats)

/-- The in-place update of `queue[index]` in `updateQueueItem`: the
*first* item whose id matches is replaced by `f` applied to it (the
source uses `findIndex`, which stops at the first match). -/
def updateFirst (queue : List SyncItem) (id : String)
    (f : SyncItem → SyncItem) : List SyncItem :=
  match queue with
  | [] => []
  | x :: xs => if x.id == id then f x :: xs else x :: updateFirst xs id f

/-- `SyncQueueService.updateQueueItem`: returns `false` (store untouched)
when the id is absent or the write throws; otherwise writes the updated
queue and returns `true`.  The partial-update spread is modelled by `f`. -/
def updateQueueItem (readFails writeFails : Bool) (stored : List SyncItem)
    (id : String) (f : SyncItem → SyncItem) : Bool × List SyncItem :=
  let queue := getQueue readFails stored
  if queue.all (fun item => item.id ≠ id) then (false, stored)
  else if writeFails then (false, stored)
  else (true, updateFirst queue id f)

/-- `SyncQueueService.removeFromQueue`: filters out *every* item whose id
matches; returns `false` (store untouched) when nothing matched or the
write throws. -/
def removeFromQueue (readFails writeFails : Bool) (stored : List SyncItem)
    (id : String) : Bool × List SyncItem :=
  let queue := getQueue readFails stored
  let newQueue := queue.filter (fun item => item.id ≠ id)
  if newQueue.length == queue.length then (false, stored)
  else if writeFails then (false, stored)
  else (true, newQueue)

/-- `SyncQueueService.hasPendingItems`: some item is `pending` or
`failed` — the retry count is *not* consulted. -/
def hasPendingItems (readFails : Bool) (stored : List SyncItem) : Bool :=
  (getQueue readFails stored).any
    (fun item => item.status == .pending || item.status == .failed)

/-- `SyncQueueService.shouldAttemptSync`: online, has pending items, and
`!stats.lastSyncAttempt || (now - stats.lastSyncAttempt) > 60000`.  Under
JavaScript truthiness `!lastSyncAttempt` is true both for `null` and for
the number `0`. -/
def shouldAttemptSync (online readFails : Bool) (storedQueue : List SyncItem)
    (storedStats : SyncStats) (now : Int) : Bool :=
  if !online then false
  else if !hasPendingItems readFails storedQueue then false
  else
    let stats := getStats readFails storedStats
    match stats.lastSyncAttempt with
    | none => true
    | some t => t == 0 || now - t > 60000

/-- C3 counterexample: with a failing storage write, `addToQueue` does
*not* return a safe default — its catch block logs and then re-throws
(`throw error`), so the exception propagates to the caller. -/
theorem c3_addToQueue_propagates :
    addToQueue false true [] "farmer_1_x" 0 =
      Except.error "storage write failed" := rfl

/-- C3 (amended): under storage I/O failure every Sync Queue Service
operation *except* `addToQueue` and `clearQueue` logs and returns a safe
default (empty list, default stats, `false`, store untouched);
`addToQueue` and `clearQueue` log and re-throw the storage error. -/
theorem c3_storage_failure_defaults (rf online : Bool)
    (stored : List SyncItem) (storedStats : SyncStats) (id : String)
    (f : SyncItem → SyncItem) (now : Int) :
    getQueue true stored = [] ∧
    getStats true storedStats = defaultStats ∧
    updateQueueItem rf true stored id f = (false, stored) ∧
    removeFromQueue rf true stored id = (false, stored) ∧
    hasPendingItems true stored = false ∧
    getItemsReadyForRetry (getQueue true stored) now = [] ∧
    shouldAttemptSync online true stored storedStats now = false ∧
    addToQueue rf true stored id now = Except.error "storage write failed" ∧
    clearQueue true = Except.error "storage remove failed" := by
  refine ⟨rfl, rfl, ?_, ?_, rfl, rfl, ?_, rfl, rfl⟩
  · unfold updateQueueItem
    split <;> simp_all
  · unfold removeFromQueue
    split <;> simp_all
  · cases online <;> rfl

/-- C5 counterexample: online, never attempted, and the queue holds only
a failed item already at the retry ceiling (`retryCount = 5`, not
retriable) — yet `shouldAttemptSync` returns `true`, because
`hasPendingItems` counts every failed item without consulting its retry
count. -/
theorem c5_ceiling_item_triggers_sync :
    shouldAttemptSync true false [failedAtCeiling] defaultStats 0 = true ∧
    ([failedAtCeiling].all fun item =>
      !(item.status == .pending ||
        (item.status == .failed && item.retryCount < 5))) = true := by
  constructor <;> decide

/-- C5 (amended): with readable storage, `shouldAttemptSync` returns
`true` exactly when connectivity is up, at least one item is `pending`
or `failed` (any retry count), and the recorded last attempt is either
absent (the code also treats a recorded timestamp `0` as absent, by
JavaScript falsiness) or more than 60 seconds old. -/
theorem c5_shouldAttemptSync_iff (online : Bool) (queue : List SyncItem)
    (stats : SyncStats) (now : Int) :
    shouldAttemptSync online false queue stats now = true ↔
      online = true ∧
      (∃ item ∈ queue, item.status = .pending ∨ item.status = .failed) ∧
      (∀ t, stats.lastSyncAttempt = some t → t = 0 ∨ now - t > 60000) := by
  have hpend : hasPendingItems false queue = true ↔
      ∃ item ∈ queue, item.status = .pending ∨ item.status = .failed := by
    unfold hasPendingItems getQueue
    rw [List.any_eq_true]
    constructor
    · rintro ⟨x, hx, hs⟩
      rcases Bool.or_eq_true_iff.1 hs with hp | hf
      · exact ⟨x, hx, Or.inl (by simpa using hp)⟩
      · exact ⟨x, hx, Or.inr (by simpa using hf)⟩
    · rintro ⟨x, hx, hp | hf⟩
      · exact ⟨x, hx, by simp [hp]⟩
      · exact ⟨x, hx, by simp [hf]⟩
  unfold shouldAttemptSync getStats
  cases online with
  | false => simp
  | true =>
    simp only [Bool.not_true, Bool.false_eq_true, if_false]
    by_cases hp : hasPendingItems false queue = true
    · rw [if_neg (by simp [hp])]
      cases h : stats.lastSyncAttempt with
      | none => simp [hpend.1 hp]
      | some t =>
          simp only [h]
          rw [Bool.or_eq_true_iff]
          constructor
          · rintro (h0 | hgt)
            · refine ⟨trivial, hpend.1 hp, fun u hu => Or.inl ?_⟩
              have hut := Option.some_inj.1 hu
              subst hut
              simpa using h0
            · refine ⟨trivial, hpend.1 hp, fun u hu => Or.inr ?_⟩
              have hut := Option.some_inj.1 hu
              subst hut
              exact of_decide_eq_true hgt
          · rintro ⟨-, -, hlast⟩
            rcases hlast t rfl with h0 | hgt
            · exact Or.inl (by simp [h0])
            · exact Or.inr (decide_eq_true hgt)
    · rw [if_pos (by simpa using hp)]
      simp only [Bool.false_eq_true, false_iff]
      rintro ⟨-, hex, -⟩
      exact hp (hpend.2 hex)

/-- `SyncManager.clearFailedItems`: loads the queue, selects the items
with `status = failed` and `retryCount >= 5`, and removes each one by id
via `removeFromQueue` (success path of storage I/O). -/
def clearFailedItems (stored : List SyncItem) : List SyncItem :=
  let queue := getQueue false stored
  let failedItems := queue.filter
    (fun item => item.status == .failed && decide (5 ≤ item.retryCount))
  failedItems.foldl (fun acc f => (removeFromQueue false false acc f.id).2) queue

/-- With storage healthy, `removeFromQueue` leaves exactly the items
whose id differs (also when nothing matched, since then the filter is
the whole queue). -/
lemma removeFromQueue_snd_eq_filter (q : List SyncItem) (id : String) :
    (removeFromQueue false false q id).2 =
      q.filter (fun item => item.id ≠ id) := by
  unfold removeFromQueue getQueue
  simp only [Bool.false_eq_true, if_false]
  split
  · next h =>
      exact ((List.filter_sublist q).eq_of_length (by simpa using h)).symm
  · rfl

/-- Folding id-removals over a list of victims filters by all their ids. -/
lemma foldl_remove_eq_filter (L q : List SyncItem) :
    L.foldl (fun acc f => (removeFromQueue false false acc f.id).2) q =
      q.filter (fun item => L.all fun f => item.id ≠ f.id) := by
  induction L generalizing q with
  | nil => simp
  | cons f L ih =>
      rw [List.foldl_cons, removeFromQueue_snd_eq_filter, ih,
        List.filter_filter]
      exact List.filter_congr fun x _ => by simp [Bool.and_comm]

/-- When ids are pairwise distinct, `clearFailedItems` is the filter
that drops exactly the failed items at or beyond the retry ceiling. -/
lemma clearFailedItems_eq_filter (stored : List SyncItem)
    (hnd : (stored.map SyncItem.id).Nodup) :
    clearFailedItems stored =
      stored.filter (fun item =>
        !(item.status == .failed && decide (5 ≤ item.retryCount))) := by
  unfold clearFailedItems getQueue
  simp only [Bool.false_eq_true, if_false]
  rw [foldl_remove_eq_filter]
  refine List.filter_congr fun x hx => ?_
  by_cases hP : (x.status == .failed && decide (5 ≤ x.retryCount)) = true
  · simp only [hP, Bool.not_true]
    rw [List.all_eq_false]
    exact ⟨x, List.mem_filter.2 ⟨hx, hP⟩, by simp⟩
  · simp only [Bool.not_eq_true] at hP
    simp only [hP, Bool.not_false]
    rw [List.all_eq_true]
    intro f hf
    rcases List.mem_filter.1 hf with ⟨hfq, hPf⟩
    have hne : x ≠ f := fun hxf => by
      rw [hxf, hPf] at hP
      exact Bool.noConfusion hP
    have hid : x.id ≠ f.id := fun hid =>
      hne (List.inj_on_of_nodup_map hnd hx hfq hid)
    exact decide_eq_true hid

/-- C9 (amended): provided the queue's item ids are pairwise distinct
(as generated ids are), `clearFailedItems` removes exactly the items
with `status = failed` and `retryCount >= 5`; every other item remains,
in its original relative order. -/
theorem c9_clearFailedItems_exact (stored : List SyncItem)
    (hnd : (stored.map SyncItem.id).Nodup) :
    clearFailedItems stored =
      stored.filter (fun item =>
        !(item.status == .failed && decide (5 ≤ item.retryCount))) :=
  clearFailedItems_eq_filter stored hnd

/-- Witness for `c9_clearFailedItems_exact` on a concrete three-item
queue with distinct ids. -/
theorem c9_clearFailedItems_exact_witness :
    clearFailedItems [failedAtCeiling, boundaryItem, pendingAtCeiling] =
      [boundaryItem, pendingAtCeiling] :=
  (c9_clearFailedItems_exact [failedAtCeiling, boundaryItem, pendingAtCeiling]
    (by decide)).trans (by decide)

/-- A retry-ceiling failed item with the same id as a pending item. -/
def dupFailed : SyncItem :=
  { id := "dup", timestamp := 0, retryCount := 5, status := .failed }

/-- A pending item sharing `dupFailed`'s id. -/
def dupPending : SyncItem :=
  { id := "dup", timestamp := 0, retryCount := 0, status := .pending }

/-- C9 counterexample: with a duplicated id, `removeFromQueue` (an
id-keyed filter) also deletes the innocent pending item, so the claim's
"every non-failed item remains" fails on this queue state. -/
theorem c9_duplicate_id_collateral :
    clearFailedItems [dupFailed, dupPending] = [] ∧
    [dupFailed, dupPending].filter (fun item =>
      !(item.status == .failed && decide (5 ≤ item.retryCount))) =
      [dupPending] := by
  constructor <;> decide

/-- C10: `updateStats` recomputes the five count fields from the current
queue and leaves `lastSyncAttempt` and `lastSuccessfulSync` unchanged. -/
theorem c10_updateStats_counts_and_frame (queue : List SyncItem)
    (stats : SyncStats) :
    (updateStats queue stats).lastSyncAttempt = stats.lastSyncAttempt ∧
    (updateStats queue stats).lastSuccessfulSync = stats.lastSuccessfulSync ∧
    (updateStats queue stats).totalItems = queue.length ∧
    (updateStats queue stats).pendingItems =
      (queue.filter (fun item => item.status == .pending)).length ∧
    (updateStats queue stats).failedItems =
      (queue.filter (fun item => item.status == .failed)).length ∧
    (updateStats queue stats).successItems =
      (queue.filter (fun item => item.status == .success)).length ∧
    (updateStats queue stats).processingItems =
      (queue.filter (fun item => item.status == .processing)).length :=
  ⟨rfl, rfl, rfl, rfl, rfl, rfl, rfl⟩

/-! ## `SyncManager` (`src/services/syncManager.ts`) -/

/-- The status values passed to `onSyncStatusChange`. -/
inductive MgrStatus where
  | idle
  | syncing
  | completed
  | failed
  deriving DecidableEq, Repr

/-- Result of `syncItem` for one queue item: the promise resolves with a
boolean, or it rejects (the `throw error` path). -/
inductive SyncOutcome where
  | ok (success : Bool)
  | thrown (msg : String)
  deriving DecidableEq, Repr

/-- The state `attemptSync` runs against: the manager's `isRunning`
flag, connectivity, the stored queue and stats, and the current time. -/
structure MgrState where
  isRunning : Bool
  online : Bool
  queue : List SyncItem
  stats : SyncStats
  now : Int
  deriving Repr

/-- Observable outcome of one `attemptSync` call: its boolean return
value, the queue and stats left in storage, the manager's `isRunning`
flag afterwards, the statuses emitted to `onSyncStatusChange` in order,
and the final values of the local `completed` / `failed` counters. -/
structure MgrResult where
  returned : Bool
  queue : List SyncItem
  stats : SyncStats
  isRunning : Bool
  emitted : List MgrStatus
  completedCount : Nat
  failedCount : Nat
  deriving DecidableEq, Repr

/-- One iteration of `attemptSync`'s per-item loop: mark the item
`processing`, run `syncItem`, then mark it `success`, or `failed` with
`retryCount` incremented from the captured item; a rejection is caught
by the per-item `catch`, which also marks `failed` — processing always
continues with the next item.  The accumulator carries the queue and the
`completed` / `failed` counters. -/
def processItem (now : Int) (syncResult : SyncItem → SyncOutcome)
    (acc : List SyncItem × Nat × Nat) (item : SyncItem) :
    List SyncItem × Nat × Nat :=
  let q1 := (updateQueueItem false false acc.1 item.id
    (fun x => { x with
      status := .processing
      timestamp := now })).2
  match syncResult item with
  | .ok true =>
      ((updateQueueItem false false q1 item.id
        (fun x => { x with
          status := .success
          timestamp := now })).2,
        acc.2.1 + 1, acc.2.2)
  | .ok false =>
      ((updateQueueItem false false q1 item.id
        (fun x => { x with
          status := .failed
          retryCount := item.retryCount + 1
          timestamp := now
          lastError := some "Sync failed" })).2,
        acc.2.1, acc.2.2 + 1)
  | .thrown msg =>
      ((updateQueueItem false false q1 item.id
        (fun x => { x with
          status := .failed
          retryCount := item.retryCount + 1
          timestamp := now
          lastError := some msg })).2,
        acc.2.1, acc.2.2 + 1)

/-- `SyncManager.attemptSync` (healthy-storage path), following the
source's control flow: the `isRunning` re-entry guard (return `false`,
nothing read, written or emitted), the `shouldSync` check (when false:
log, clear `isRunning`, return `false` — no status emitted), the
`lastSyncAttempt` update, the `'syncing'` emission, the empty-batch
early exit emitting `'completed'` and returning `true`, the per-item
loop, the stats recomputation, `lastSuccessfulSync` when any item
succeeded, and the final emission `failed === total ? 'failed' :
'completed'` with return value `completed > 0`. -/
def attemptSync (forceSync : Bool) (st : MgrState)
    (syncResult : SyncItem → SyncOutcome) : MgrResult :=
  if st.isRunning then
    { returned := false, queue := st.queue, stats := st.stats,
      isRunning := st.isRunning, emitted := [],
      completedCount := 0, failedCount := 0 }
  else
    let shouldSync := forceSync ||
      shouldAttemptSync st.online false st.queue st.stats st.now
    if !shouldSync then
      { returned := false, queue := st.queue, stats := st.stats,
        isRunning := false, emitted := [],
        completedCount := 0, failedCount := 0 }
    else
      let stats1 := { st.stats with lastSyncAttempt := some st.now }
      let itemsToSync := getItemsReadyForRetry st.queue st.now
      if itemsToSync.isEmpty then
        { returned := true, queue := st.queue, stats := stats1,
          isRunning := false, emitted := [.syncing, .completed],
          completedCount := 0, failedCount := 0 }
      else
        let res := itemsToSync.foldl (processItem st.now syncResult)
          (st.queue, 0, 0)
        let stats2 := updateStats res.1 stats1
        let stats3 := if res.2.1 > 0 then
          { stats2 with lastSuccessfulSync := some st.now } else stats2
        { returned := res.2.1 > 0, queue := res.1, stats := stats3,
          isRunning := false,
          emitted := [.syncing,
            if res.2.2 == itemsToSync.length then .failed else .completed],
          completedCount := res.2.1, failedCount := res.2.2 }

/-- `SyncManager.initialize`: stores the two callbacks, registers the
NetInfo listener and starts the 5-minute interval timer.  It performs no
storage operation whatsoever — in particular it does not touch queue
items left in `processing` by an aborted previous run.  (Named
`initializeManager` here because `initialize` is a Lean keyword.) -/
def initializeManager (st : MgrState) : MgrState := st

/-- C6: when `isRunning` is already set, `attemptSync` returns `false`
immediately: the queue and stats are not read or mutated, no status is
emitted, and the flag (owned by the running cycle) is left set. -/
theorem c6_reentrant_call_is_noop (forceSync : Bool) (st : MgrState)
    (syncResult : SyncItem → SyncOutcome) (h : st.isRunning = true) :
    attemptSync forceSync st syncResult =
      { returned := false, queue := st.queue, stats := st.stats,
        isRunning := true, emitted := [],
        completedCount := 0, failedCount := 0 } := by
  unfold attemptSync
  rw [h]
  simp

/-- A manager state whose `isRunning` flag is set. -/
def runningState : MgrState :=
  { isRunning := true, online := true, queue := [boundaryItem],
    stats := defaultStats, now := 0 }

/-- Witness for `c6_reentrant_call_is_noop` at a concrete state. -/
theorem c6_reentrant_call_is_noop_witness :
    attemptSync false runningState (fun _ => SyncOutcome.ok true) =
      { returned := false, queue := runningState.queue,
        stats := runningState.stats, isRunning := true, emitted := [],
        completedCount := 0, failedCount := 0 } :=
  c6_reentrant_call_is_noop false runningState (fun _ => SyncOutcome.ok true)
    rfl

/-- A quiescent offline state: `shouldAttemptSync` is false there. -/
def offlineState : MgrState :=
  { isRunning := false, online := false, queue := [boundaryItem],
    stats := defaultStats, now := 0 }

/-- C7 counterexample: in a cycle with `forceSync = false` where
`shouldAttemptSync` is false, the source logs and returns without
calling `onSyncStatusChange` at all — no `'completed'` status is
emitted, contrary to the claim. -/
theorem c7_skip_emits_no_status :
    shouldAttemptSync offlineState.online false offlineState.queue
      offlineState.stats offlineState.now = false ∧
    (attemptSync false offlineState (fun _ => SyncOutcome.ok true)).emitted
      = [] := by
  constructor <;> rfl

/-- C7 (amended): when `forceSync` is false and `shouldAttemptSync`
returns false, `attemptSync` emits *no* status, clears `isRunning` and
returns `false`, leaving queue and stats untouched. -/
theorem c7_skip_is_silent (st : MgrState)
    (syncResult : SyncItem → SyncOutcome) (hrun : st.isRunning = false)
    (hshould : shouldAttemptSync st.online false st.queue st.stats st.now
      = false) :
    attemptSync false st syncResult =
      { returned := false, queue := st.queue, stats := st.stats,
        isRunning := false, emitted := [],
        completedCount := 0, failedCount := 0 } := by
  unfold attemptSync
  rw [hrun, hshould]
  simp

/-- Witness for `c7_skip_is_silent` at the concrete offline state. -/
theorem c7_skip_is_silent_witness :
    attemptSync false offlineState (fun _ => SyncOutcome.ok true) =
      { returned := false, queue := offlineState.queue,
        stats := offlineState.stats, isRunning := false, emitted := [],
        completedCount := 0, failedCount := 0 } :=
  c7_skip_is_silent offlineState (fun _ => SyncOutcome.ok true) rfl rfl

/-- An item left in `processing` by an abnormally terminated cycle. -/
def stuckProcessing : SyncItem :=
  { id := "farmer_0_s", timestamp := 0, retryCount := 0,
    status := .processing }

/-- A fresh-start state holding only the stuck `processing` item. -/
def restartState : MgrState :=
  { isRunning := false, online := true, queue := [stuckProcessing],
    stats := defaultStats, now := 1000000 }

/-- C8: contrary to the reconciliation rule, initialization performs no
storage operation, so a leftover `processing` item is neither marked
`failed` nor ever selected again: even a forced full sync cycle after
restart leaves it in `processing` — it is silently lost. -/
theorem c8_stuck_processing_item_is_lost :
    (initializeManager restartState).queue = [stuckProcessing] ∧
    stuckProcessing.status = .processing ∧
    getItemsReadyForRetry (initializeManager restartState).queue
      (initializeManager restartState).now = [] ∧
    (attemptSync true (initializeManager restartState)
      (fun _ => SyncOutcome.ok true)).queue = [stuckProcessing] := by
  refine ⟨rfl, rfl, rfl, ?_⟩
  rfl

/-- Whether one item's `syncItem` outcome counts as a success in the
drain loop (`result === true`); both `ok false` and a rejection take the
failure path. -/
def outcomeSucceeds (o : SyncOutcome) : Bool :=
  match o with
  | .ok true => true
  | _ => false

/-- The drain loop's counters: every item contributes exactly one to
`completed` or to `failed`, so no failure aborts the remaining items. -/
lemma foldl_processItem_counts (now : Int) (sr : SyncItem → SyncOutcome)
    (items : List SyncItem) :
    ∀ acc : List SyncItem × Nat × Nat,
      (items.foldl (processItem now sr) acc).2.1 =
          acc.2.1 + items.countP (fun i => outcomeSucceeds (sr i)) ∧
      (items.foldl (processItem now sr) acc).2.2 =
          acc.2.2 + items.countP (fun i => !outcomeSucceeds (sr i)) := by
  induction items with
  | nil => intro acc; simp
  | cons i items ih =>
      intro acc
      rw [List.foldl_cons, List.countP_cons, List.countP_cons]
      rcases ih (processItem now sr acc i) with ⟨h1, h2⟩
      rw [h1, h2]
      have hstep : (processItem now sr acc i).2.1 =
            acc.2.1 + (if outcomeSucceeds (sr i) then 1 else 0) ∧
          (processItem now sr acc i).2.2 =
            acc.2.2 + (if !outcomeSucceeds (sr i) then 1 else 0) := by
        rcases hq : sr i with b | msg
        · cases b <;> simp [processItem, hq, outcomeSucceeds]
        · simp [processItem, hq, outcomeSucceeds]
      rw [hstep.1, hstep.2]
      constructor <;> by_cases hb : outcomeSucceeds (sr i) = true <;>
        simp [hb] <;> omega

/-- Complementary counts add up to the length of the list. -/
lemma countP_add_countP_not (p : SyncItem → Bool) (l : List SyncItem) :
    l.countP p + l.countP (fun a => !(p a)) = l.length := by
  induction l with
  | nil => simp
  | cons a l ih =>
      rw [List.countP_cons, List.countP_cons, List.length_cons]
      by_cases hb : p a = true <;> simp [hb] <;> omega

/-- C4: in every drain cycle with at least one eligible item, each item
is processed (`completed + failed` equals the batch size — a single
failure never aborts the cycle), and the final status emitted to
subscribers is `'failed'` exactly when every item in the batch failed,
and `'completed'` otherwise. -/
theorem c4_partial_failure_tolerance (forceSync : Bool) (st : MgrState)
    (sr : SyncItem → SyncOutcome)
    (hrun : st.isRunning = false)
    (hshould : (forceSync ||
      shouldAttemptSync st.online false st.queue st.stats st.now) = true)
    (hne : getItemsReadyForRetry st.queue st.now ≠ []) :
    (attemptSync forceSync st sr).completedCount +
        (attemptSync forceSync st sr).failedCount =
      (getItemsReadyForRetry st.queue st.now).length ∧
    ((attemptSync forceSync st sr).emitted =
        [MgrStatus.syncing, MgrStatus.failed] ↔
      ∀ i ∈ getItemsReadyForRetry st.queue st.now,
        outcomeSucceeds (sr i) = false) ∧
    ((attemptSync forceSync st sr).emitted =
        [MgrStatus.syncing, MgrStatus.failed] ∨
      (attemptSync forceSync st sr).emitted =
        [MgrStatus.syncing, MgrStatus.completed]) := by
  have hie : (getItemsReadyForRetry st.queue st.now).isEmpty = false := by
    rcases h : getItemsReadyForRetry st.queue st.now with _ | ⟨a, t⟩
    · exact absurd h hne
    · rfl
  have hc := foldl_processItem_counts st.now sr
    (getItemsReadyForRetry st.queue st.now) (st.queue, 0, 0)
  rcases hc with ⟨hc1, hc2⟩
  have hres : attemptSync forceSync st sr =
      { returned := decide (((getItemsReadyForRetry st.queue st.now).foldl
          (processItem st.now sr) (st.queue, 0, 0)).2.1 > 0)
        queue := ((getItemsReadyForRetry st.queue st.now).foldl
          (processItem st.now sr) (st.queue, 0, 0)).1
        stats := (if ((getItemsReadyForRetry st.queue st.now).foldl
            (processItem st.now sr) (st.queue, 0, 0)).2.1 > 0 then
          { updateStats ((getItemsReadyForRetry st.queue st.now).foldl
              (processItem st.now sr) (st.queue, 0, 0)).1
              { st.stats with lastSyncAttempt := some st.now } with
            lastSuccessfulSync := some st.now }
          else updateStats ((getItemsReadyForRetry st.queue st.now).foldl
              (processItem st.now sr) (st.queue, 0, 0)).1
              { st.stats with lastSyncAttempt := some st.now })
        isRunning := false
        emitted := [MgrStatus.syncing,
          if ((getItemsReadyForRetry st.queue st.now).foldl
              (processItem st.now sr) (st.queue, 0, 0)).2.2 ==
              (getItemsReadyForRetry st.queue st.now).length then
            MgrStatus.failed else MgrStatus.completed]
        completedCount := ((getItemsReadyForRetry st.queue st.now).foldl
          (processItem st.now sr) (st.queue, 0, 0)).2.1
        failedCount := ((getItemsReadyForRetry st.queue st.now).foldl
          (processItem st.now sr) (st.queue, 0, 0)).2.2 } := by
    unfold attemptSync
    rw [hrun, hshould]
    simp [hie]
  rw [hres]
  simp only [hc1, hc2, Nat.zero_add]
  refine ⟨countP_add_countP_not _ _, ?_, ?_⟩
  · constructor
    · intro hemit
      by_cases hall : ((getItemsReadyForRetry st.queue st.now).countP
          (fun i => !outcomeSucceeds (sr i))) =
          (getItemsReadyForRetry st.queue st.now).length
      · intro i hi
        have := List.countP_eq_length.1 hall i hi
        simpa using this
      · rw [if_neg (by simpa using hall)] at hemit
        exact absurd (List.cons.inj hemit).2 (by simp)
    · intro hall
      rw [if_pos]
      rw [beq_iff_eq]
      exact List.countP_eq_length.2 fun i hi => by simp [hall i hi]
  · by_cases hall : (((getItemsReadyForRetry st.queue st.now).countP
        (fun i => !outcomeSucceeds (sr i))) ==
        (getItemsReadyForRetry st.queue st.now).length) = true
    · exact Or.inl (by rw [if_pos hall])
    · exact Or.inr (by rw [if_neg hall])

/-- First pending item of the reference three-item drain cycle. -/
def pendA : SyncItem :=
  { id := "farmer_a", timestamp := 0, retryCount := 0, status := .pending }

/-- Second pending item of the reference three-item drain cycle. -/
def pendB : SyncItem :=
  { id := "farmer_b", timestamp := 0, retryCount := 0, status := .pending }

/-- Third pending item of the reference three-item drain cycle. -/
def pendC : SyncItem :=
  { id := "farmer_c", timestamp := 0, retryCount := 0, status := .pending }

/-- A ready-to-sync state holding the three pending items. -/
def cycleState : MgrState :=
  { isRunning := false, online := true, queue := [pendA, pendB, pendC],
    stats := defaultStats, now := 0 }

/-- Server behaviour for the reference cycle: submission succeeds for
the first two items and fails for the third. -/
def cycleOutcomes : SyncItem → SyncOutcome :=
  fun item => if item.id == "farmer_c" then SyncOutcome.ok false
    else SyncOutcome.ok true

/-- Witness for `c4_partial_failure_tolerance` on the three-item cycle
with two successes and one failure. -/
theorem c4_partial_failure_tolerance_witness :
    (attemptSync true cycleState cycleOutcomes).completedCount +
        (attemptSync true cycleState cycleOutcomes).failedCount =
      (getItemsReadyForRetry cycleState.queue cycleState.now).length ∧
    ((attemptSync true cycleState cycleOutcomes).emitted =
        [MgrStatus.syncing, MgrStatus.failed] ↔
      ∀ i ∈ getItemsReadyForRetry cycleState.queue cycleState.now,
        outcomeSucceeds (cycleOutcomes i) = false) ∧
    ((attemptSync true cycleState cycleOutcomes).emitted =
        [MgrStatus.syncing, MgrStatus.failed] ∨
      (attemptSync true cycleState cycleOutcomes).emitted =
        [MgrStatus.syncing, MgrStatus.completed]) :=
  c4_partial_failure_tolerance true cycleState cycleOutcomes rfl (by decide)
    (by decide)

end Fieldscore
